import Mathlib

/-!
Shallow embedding of the natural-language-to-SQL pipeline of the
`nl-to-sql` repository (files `backend/sql_assistant.py` and
`backend/api.py`), together with theorems settling the frozen claims
about it.

External collaborators (the LLM completion client, the SQL engine, the
schema introspection call) are modelled as oracle outcomes supplied to
each run: an `Except Unit String` is a call that either returned a string
or raised.  Python exceptions are modelled with `Except`; the various
`try/except` blocks of the source are translated as explicit `match`es on
those outcomes.
-/

namespace NlToSql

/-- Python literal values, as produced by `ast.literal_eval` on the raw
string returned by the SQL engine tool (`execute_query` in
`sql_assistant.py` parses the raw result with `ast.literal_eval`). -/
inductive PyVal where
  | pynone
  | pybool (b : Bool)
  | pyint (n : Int)
  | pystr (s : String)
  | pytuple (xs : List PyVal)
  | pylist (xs : List PyVal)
  | pydict (kvs : List (PyVal × PyVal))

/-- Model of a `pandas.DataFrame` as built by `execute_query`:
`valueColumn` records whether it was built with `columns=["value"]`
(a one-column table whose sole column is named `value`), and `rows` holds
one entry per row (the record/value the row was built from).  The empty
frame `pd.DataFrame()` is `⟨false, []⟩`. -/
structure DataFrame where
  valueColumn : Bool
  rows : List PyVal

/-- `pd.DataFrame()`: the empty frame. -/
def emptyDF : DataFrame := ⟨false, []⟩

/-- Python truthiness of a literal value (`if result_list and ...`). -/
def pyTruthy : PyVal → Bool
  | .pynone => false
  | .pybool b => b
  | .pyint n => n != 0
  | .pystr s => s != ""
  | .pytuple xs => !xs.isEmpty
  | .pylist xs => !xs.isEmpty
  | .pydict kvs => !kvs.isEmpty

/-- Whether a dict key equals the Python subscript `0`
(`0 == False == 0` in Python). -/
def isKeyZero : PyVal → Bool
  | .pyint n => n == 0
  | .pybool b => b == false
  | _ => false

/-- Python `result_list[0]`: subscripting a literal value with `0`.
Raises (`.error`) a `TypeError` for scalars, an `IndexError` for empty
sequences and a `KeyError` for dicts without the key `0`. -/
def pySub0 : PyVal → Except Unit PyVal
  | .pylist xs => match xs with | [] => .error () | x :: _ => .ok x
  | .pytuple xs => match xs with | [] => .error () | x :: _ => .ok x
  | .pystr s => match s.toList with
    | [] => .error ()
    | c :: _ => .ok (.pystr (String.mk [c]))
  | .pydict kvs => match kvs.find? (fun kv => isKeyZero kv.1) with
    | some kv => .ok kv.2
    | none => .error ()
  | _ => .error ()

/-- Python `isinstance(x, (tuple, list)) or isinstance(x, dict)`. -/
def isSeqOrDict : PyVal → Bool
  | .pytuple _ => true
  | .pylist _ => true
  | .pydict _ => true
  | _ => false

/-- The elements of a sequence literal, `none` for non-sequences.
(Strings and dicts count as scalars on the dict-of-columns path: pandas
does not turn them into column data.) -/
def seqElems : PyVal → Option (List PyVal)
  | .pytuple xs => some xs
  | .pylist xs => some xs
  | _ => none

/-- Whether Python `len(x)` succeeds: sequences, dicts and strings have
a length; bare scalars raise `TypeError`. -/
def hasLen : PyVal → Bool
  | .pytuple _ => true
  | .pylist _ => true
  | .pydict _ => true
  | .pystr _ => true
  | _ => false

/-- Whether a value is a dict literal. -/
def isDict : PyVal → Bool
  | .pydict _ => true
  | _ => false

/-- `pd.DataFrame(d)` for a dict `d` (dict-of-columns construction):
sequence values become columns and must all have the same length, else
pandas raises; scalar values broadcast to that common length; if every
value is a scalar no index can be derived and pandas raises
(`If using all scalar values, you must pass an index`); row `i`
collects the `i`-th entry of every column. -/
def dfFromDict (kvs : List (PyVal × PyVal)) : Except Unit DataFrame :=
  let vals := kvs.map (fun kv => kv.2)
  match vals.filterMap (fun v => (seqElems v).map List.length) with
  | [] =>
    match kvs with
    | [] => .ok emptyDF
    | _ :: _ => .error ()
  | L :: rest =>
    if rest.all (fun l => l == L) then
      .ok ⟨false, (List.range L).map (fun i =>
        PyVal.pytuple (vals.map (fun v =>
          match seqElems v with
          | some c => c.getD i PyVal.pynone
          | none => v)))⟩
    else .error ()

/-- `pd.DataFrame(xs)` for sequence data `xs` whose first element is a
tuple, list or dict.  A dict head routes through the list-of-records
path, which reads the keys off every element and raises for a non-dict
element; a tuple/list head routes through
`to_object_array_tuples`/`to_object_array`, which calls `len` on every
element and raises `TypeError` on a bare scalar.  On success the
elements become the rows of the frame directly. -/
def dfRows (xs : List PyVal) : Except Unit DataFrame :=
  match xs with
  | [] => .ok ⟨false, []⟩
  | x :: _ =>
    if isDict x then
      if xs.all isDict then .ok ⟨false, xs⟩ else .error ()
    else
      if xs.all hasLen then .ok ⟨false, xs⟩ else .error ()

/-- `pd.DataFrame(result_list)` on the branch where the first element is
a tuple, list or dict: a sequence of records becomes the rows of the
frame (erroring on a bare-scalar tail); a dict is column-wise. -/
def dfPlain : PyVal → Except Unit DataFrame
  | .pylist xs => dfRows xs
  | .pytuple xs => dfRows xs
  | .pydict kvs => dfFromDict kvs
  | _ => .error ()

/-- `pd.DataFrame(result_list, columns=["value"])`: a sequence of values
becomes a one-column `value` table; `None` gives an empty frame with the
`value` column; a bare scalar (int, bool, non-empty or empty string)
makes the constructor raise `ValueError`; a non-empty dict reaching this
branch raises as well (scalar values or a reindex mismatch). -/
def dfValue : PyVal → Except Unit DataFrame
  | .pylist xs => .ok ⟨true, xs⟩
  | .pytuple xs => .ok ⟨true, xs⟩
  | .pynone => .ok ⟨true, []⟩
  | .pydict kvs => match kvs with
    | [] => .ok ⟨true, []⟩
    | _ :: _ => .error ()
  | _ => .error ()

/-- The body of `execute_query` after `ast.literal_eval` produced
`result_list = v`:
`if result_list and (isinstance(result_list[0], (tuple, list)) or
isinstance(result_list[0], dict)): pd.DataFrame(result_list) else:
pd.DataFrame(result_list, columns=["value"])`. -/
def buildDF (v : PyVal) : Except Unit DataFrame :=
  if pyTruthy v then
    match pySub0 v with
    | .error _ => .error ()
    | .ok first => if isSeqOrDict first then dfPlain v else dfValue v
  else dfValue v

/-- What the raw string returned by `QuerySQLDatabaseTool.invoke`
denotes: the falsy string (`if not raw_result`), a string that
`ast.literal_eval` parses to the literal `v`, or a non-empty string that
`literal_eval` fails to parse (`result_list = [raw_result]`). -/
inductive RawVal where
  | emptyRaw
  | lit (v : PyVal)
  | unstructured (s : String)

/-- Outcome of one SQL-engine invocation: the tool call raised, or it
returned a raw string. -/
inductive EngineResult where
  | raises
  | returns (raw : RawVal)

/-- `SQLAssistApp.execute_query` without the outer `except` (which maps
any raised error to an empty frame). -/
def execute_query_inner : EngineResult → Except Unit DataFrame
  | .raises => .error ()
  | .returns raw =>
    match raw with
    | .emptyRaw => .ok emptyDF
    | .lit v => buildDF v
    | .unstructured s => buildDF (.pylist [.pystr s])

/-- `SQLAssistApp.execute_query`: runs the engine tool on the current
query and normalizes the raw result into a `DataFrame`; any exception is
caught and replaced by the empty frame. -/
def execute_query (er : EngineResult) : DataFrame :=
  match execute_query_inner er with
  | .ok df => df
  | .error _ => emptyDF

/-- The catalog-listing fallback query
`"SELECT name FROM sqlite_master WHERE type='table';"`. -/
def catalogQuery : String :=
  "SELECT name FROM sqlite_master WHERE type=\x27table\x27;"

/-- Split a character list at every character satisfying `p` (the
separators are consumed; empty pieces are kept). -/
def splitByAux (p : Char → Bool) : List Char → List (List Char)
  | [] => [[]]
  | c :: rest =>
    if p c then [] :: splitByAux p rest
    else match splitByAux p rest with
      | [] => [[c]]
      | g :: gs => (c :: g) :: gs

/-- Python `s.split('\n')`: split at every newline, keeping empty
pieces. -/
def pySplitLines (s : String) : List String :=
  (splitByAux (fun c => c == '\n') s.toList).map String.mk

/-- Python `line.split()`: split on whitespace, dropping empty pieces
(so runs of whitespace count as one separator). -/
def pyTokens (l : String) : List String :=
  ((splitByAux Char.isWhitespace l.toList).filter (fun g => !g.isEmpty)).map
    String.mk

/-- Python `s.lower()` (ASCII case folding). -/
def strLower (s : String) : String :=
  String.mk (s.toList.map Char.toLower)

/-- The characters stripped from the extracted table name:
`strip('\x60"[]')`. -/
def quoteChars : List Char := ['\x60', '\x22', '[', ']']

/-- Python `s.strip('\x60"[]')`: drop those characters from both ends. -/
def stripQuotes (s : String) : String :=
  String.mk (((s.toList.dropWhile (fun c => quoteChars.contains c)).reverse.dropWhile
    (fun c => quoteChars.contains c)).reverse)

/-- Whether `needle` matches the front of `hay`. -/
def subStart (needle : List Char) (hay : List Char) : Bool :=
  match needle, hay with
  | [], _ => true
  | _ :: _, [] => false
  | a :: as, b :: bs => a == b && subStart as bs

/-- Whether `needle` occurs contiguously somewhere in `hay`. -/
def hasSub (needle : List Char) : List Char → Bool
  | [] => subStart needle []
  | b :: bs => subStart needle (b :: bs) || hasSub needle bs

/-- Python `needle in hay` on strings: contiguous substring test. -/
def strContains (hay needle : String) : Bool :=
  hasSub needle.toList hay.toList

/-- Python `'CREATE TABLE' in line` (case-sensitive substring test). -/
def containsCreateTable (l : String) : Bool :=
  strContains l "CREATE TABLE"

/-- One iteration body of the fallback scan: if the line contains
`CREATE TABLE` and splits into more than two tokens, the candidate table
name is the third token with quote characters stripped. -/
def lineTableName (l : String) : Option String :=
  let parts := pyTokens l
  match parts.get? 2 with
  | some t => some (stripQuotes t)
  | none => none

/-- The `for line in lines` scan of `write_query`'s fallback: the first
line that contains `CREATE TABLE` and has more than two
whitespace-separated parts yields (and breaks on) its stripped third
token; lines with the marker but without a third token are skipped. -/
def findFirstTable : List String → Option String
  | [] => none
  | l :: ls =>
    if containsCreateTable l then
      match lineTableName l with
      | some t => some t
      | none => findFirstTable ls
    else findFirstTable ls

/-- Oracle outcomes for one pipeline run.  Each field is one external
call made by `SQLAssistApp`:
* `tableInfo1` — `self.database.get_table_info()` inside `write_query`'s
  `try` block;
* `gen` — the structured-output LLM invocation (`.ok q` means the final
  `generated_query` string was obtained; `.error` covers a provider
  failure, a malformed structured result, or any other exception on the
  primary path);
* `tableInfo2` — the second `get_table_info()` call inside the fallback;
* `engine` — the `QuerySQLDatabaseTool` invocation, as a function of the
  SQL string it is given;
* `answerResp` — the free-text completion of `generate_answer`;
* `valResp` — the free-text completion of `validate_result`;
* `orchFault`/`orchMsg` — whether an unexpected exception is raised in
  `query_structured`'s own orchestration glue (the outer `try` block),
  and its message. -/
structure Env where
  tableInfo1 : Except Unit String
  gen : Except Unit String
  tableInfo2 : Except Unit String
  engine : String → EngineResult
  answerResp : Except Unit String
  valResp : Except Unit String
  orchFault : Bool
  orchMsg : String

/-- The value returned by `write_query`: a dict with the single key
`query` (the `QueryOutput` schema). -/
structure GenOut where
  query : String

/-- The `except` branch of `write_query`: re-introspect the schema, scan
for the first `CREATE TABLE` line carrying a table name, and synthesize
`SELECT * FROM <first_table> LIMIT 5;` if the (truthy) name was found,
else the catalog-listing query; if the fallback itself raises, return
the catalog-listing query (`except: return {...}`). -/
def write_query_fallback (env : Env) : GenOut :=
  match env.tableInfo2 with
  | .error _ => ⟨catalogQuery⟩
  | .ok info =>
    match findFirstTable (pySplitLines info) with
    | some t =>
      -- `if first_table:` — Python truthiness, so the empty string falls
      -- through to the catalog query
      if t != "" then ⟨"SELECT * FROM " ++ t ++ " LIMIT 5;"⟩
      else ⟨catalogQuery⟩
    | none => ⟨catalogQuery⟩

/-- `SQLAssistApp.write_query`: primary structured generation; any
exception on the primary path (schema introspection or the structured
LLM call) lands in the fallback chain. -/
def write_query (env : Env) : GenOut :=
  match env.tableInfo1, env.gen with
  | .ok _, .ok q => ⟨q⟩
  | _, _ => write_query_fallback env

/-- The `State` TypedDict of `models.py`: the mutable pipeline state.
`query`, `result`, `answer` and `row_count` start as `None`. -/
structure State where
  question : String
  query : Option String
  result : Option DataFrame
  answer : Option String
  row_count : Option Nat

/-- `SQLAssistApp.generate_answer`: free-text completion over question,
query and rows; on any exception the templated fallback answer
`"Query executed successfully. Found {n} results."` with `n` the current
row count (`len(state.get('result', pd.DataFrame()))`). -/
def generate_answer (resp : Except Unit String) (st : State) : String :=
  match resp with
  | .ok a => a
  | .error _ =>
    "Query executed successfully. Found " ++
      toString (match st.result with | some df => df.rows.length | none => 0) ++
      " results."

/-- Python `"yes" in content.lower()`. -/
def containsYes (content : String) : Bool :=
  strContains (strLower content) "yes"

/-- The fixed rejection message written by `validate_result` (note the
trailing newline in the source f-string). -/
def rejectionMessage : String :=
  "The SQL query could not be validated for your question. Please ask a clearer question.\n"

/-- `SQLAssistApp.validate_result` given the outcome `resp` of the
validation completion call: if the call raises, the `except` branch is
taken before the discard block runs, so the state is returned unchanged;
if it returns content containing `yes` (case-insensitively) the state
passes through; otherwise the query is discarded, the result emptied and
the answer overwritten with the rejection message. -/
def validate_result (resp : Except Unit String) (st : State) : State :=
  match resp with
  | .error _ => st
  | .ok content =>
    if containsYes content then st
    else { st with query := none, result := some emptyDF,
                   answer := some rejectionMessage }

/-- `validate_result` with the completion call modelled as a
deterministic judgment function of the validation prompt, which is built
from the state's `question` and `query` fields only. -/
def validate_with (judge : String → Option String → Except Unit String)
    (st : State) : State :=
  validate_result (judge st.question st.query) st

/-- The `is_valid` flag computed by `validate_result` (`False` when the
completion call raises, since it is initialized before the call). -/
def validationVerdict (judge : String → Option String → Except Unit String)
    (st : State) : Bool :=
  match judge st.question st.query with
  | .error _ => false
  | .ok content => containsYes content

/-- The `QueryResult` TypedDict of `models.py`, the immutable snapshot
returned to the caller.  `sql_query` is an `Option` because
`validate_result` stores Python `None` there on rejection. -/
structure QueryResult where
  question : String
  sql_query : Option String
  result : DataFrame
  answer : String
  row_count : Nat

/-- The body of `query_structured`'s `try` block: run the four stages in
order over the state, then assemble the snapshot; an exception in the
orchestration glue itself (modelled by `orchFault`, e.g. while
assembling the final snapshot) escapes to the outer handler. -/
def query_structured_run (env : Env) (user_prompt : String) :
    Except String QueryResult :=
  let st1 : State := ⟨user_prompt, none, none, none, none⟩
  let st2 : State := { st1 with query := some (write_query env).query }
  let st3 : State :=
    { st2 with result := some (execute_query (env.engine (write_query env).query)) }
  let st4 : State := { st3 with answer := some (generate_answer env.answerResp st3) }
  let st5 : State := validate_result env.valResp st4
  if env.orchFault then .error env.orchMsg
  else
    .ok { question := st5.question
          sql_query := st5.query
          result := match st5.result with | some df => df | none => emptyDF
          answer := match st5.answer with | some a => a | none => ""
          row_count := match st5.result with | some df => df.rows.length | none => 0 }

/-- `SQLAssistApp.query_structured`: the pipeline entry point.  The
outer `except` converts any escaped exception into a `QueryResult` with
empty query, empty result, zero row count and an error-describing
answer. -/
def query_structured (env : Env) (user_prompt : String) : QueryResult :=
  match query_structured_run env user_prompt with
  | .ok r => r
  | .error e =>
    { question := user_prompt
      sql_query := some ""
      result := emptyDF
      answer := "Error processing query: " ++ e
      row_count := 0 }

/-- One entry of the `sessions` registry in `api.py`
(`{ session_id: { "db": ..., "langchain_db": ..., "last_used": ts } }`).
`releaseRaises` models whether disposing the entry's engines raises. -/
structure Session where
  sid : String
  last_used : Int
  releaseRaises : Bool

/-- `SESSION_TTL = 900` (15 minutes). -/
def SESSION_TTL : Int := 900

/-- The expiry test of `cleanup_sessions`:
`now - data["last_used"] > SESSION_TTL`. -/
def isExpired (now : Int) (s : Session) : Bool :=
  now - s.last_used > SESSION_TTL

/-- The `for sid in expired` loop of `cleanup_sessions`: for each
expired sid, `try` to dispose its engines (a raise is caught and
logged), and in the `finally` block pop the entry from the registry.
Returns the remaining registry together with the sids whose engines were
disposed without raising. -/
def sweepLoop : List String → List Session → List String →
    List Session × List String
  | [], reg, rel => (reg, rel)
  | sid :: rest, reg, rel =>
    let rel' := match reg.find? (fun s => s.sid == sid) with
      | some s => if s.releaseRaises then rel else rel ++ [sid]
      | none => rel
    sweepLoop rest (reg.filter (fun s => s.sid != sid)) rel'

/-- `cleanup_sessions` of `api.py` (the `before_request` sweep): collect
the sids of all sessions idle longer than `SESSION_TTL`, then release
and remove each of them; a release failure on one session is swallowed
and its entry is still removed. -/
def cleanup_sessions (now : Int) (sessions : List Session) :
    List Session × List String :=
  let expired := (sessions.filter (isExpired now)).map (fun s => s.sid)
  sweepLoop expired sessions []

/-- The JSON payload of a `/api/get-query` request. -/
structure ApiPayload where
  session_id : Option String
  question : Option String

/-- A response of the `process_query` handler: an error envelope with
its message and HTTP status code.  (The nominal branch of the handler
also ends in an error envelope: `query_structured` returns a TypedDict,
so the attribute accesses `result.result` etc. raise `AttributeError`,
which the inner `except` converts to a 500 envelope.) -/
inductive ApiResponse where
  | failure (error : String) (code : Nat)

/-- `'No JSON payload'`. -/
def noPayloadMsg : String := "No JSON payload"

/-- `'Invalid session. Please upload a file first.'`. -/
def invalidSessionMsg : String := "Invalid session. Please upload a file first."

/-- The fixed guidance message for short questions:
`'Question too short. Please ask a clearer question.'`. -/
def tooShortMsg : String := "Question too short. Please ask a clearer question."

/-- The message of the 500 envelope produced on the nominal branch:
`f"Failed to process question: {str(e)}"` for the `AttributeError`
raised by `result.result` on the returned TypedDict. -/
def processFailedMsg : String :=
  "Failed to process question: \x27dict\x27 object has no attribute \x27result\x27"

/-- The `process_query` handler of `api.py` (route `/api/get-query`),
excluding the separate `before_request` sweep.  Returns the response,
the updated registry, and whether `query_structured` was invoked.
`SQLAssistApp(langchain_db)` construction is modelled as succeeding (it
raises only on missing environment configuration, not on any input). -/
def process_query (env : Env) (now : Int) (payload : Option ApiPayload)
    (sessions : List Session) : ApiResponse × List Session × Bool :=
  match payload with
  | none => (.failure noPayloadMsg 400, sessions, false)
  | some p =>
    match p.session_id with
    | none => (.failure invalidSessionMsg 400, sessions, false)
    | some sid =>
      -- `if not session_id or session_id not in sessions` (the empty
      -- string is falsy)
      if sid == "" || (sessions.find? (fun s => s.sid == sid)).isNone then
        (.failure invalidSessionMsg 400, sessions, false)
      else if (p.question.getD "").length < 10 then
        (.failure tooShortMsg 400, sessions, false)
      else
        -- `sessions[session_id]["last_used"] = time.time()`
        let sessions2 := sessions.map
          (fun s => if s.sid == sid then { s with last_used := now } else s)
        let r := query_structured env (p.question.getD "")
        -- `result.result` raises AttributeError on the TypedDict; the
        -- inner `except` maps it to a 500 envelope.  `r` is the
        -- pipeline run that was performed before the failure.
        (.failure (match r with | _ => processFailedMsg) 500, sessions2, true)

/-! ## Specification-side characterizations and helper lemmas -/

/-- Declarative reading of the fallback scan target: a line that
contains the `CREATE TABLE` marker and carries a table-name token (it
splits into more than two whitespace-separated parts). -/
def isDeclLine (l : String) : Bool :=
  containsCreateTable l && (lineTableName l).isSome

/-- The table name such a line declares: its third token with quote
characters stripped. -/
def declName (l : String) : String :=
  (lineTableName l).getD ""

/-- The imperative scan of `write_query`'s fallback equals the
declarative description: take the first declaration line and extract its
table name. -/
theorem findFirstTable_eq_find (ls : List String) :
    findFirstTable ls = (ls.find? isDeclLine).map declName := by
  induction ls with
  | nil => rfl
  | cons l ls ih =>
    by_cases hc : containsCreateTable l = true
    · cases ht : lineTableName l with
      | some t =>
        have hd : isDeclLine l = true := by
          simp [isDeclLine, hc, ht]
        simp [findFirstTable, hc, ht, List.find?, hd, declName]
      | none =>
        have hd : isDeclLine l = false := by
          simp [isDeclLine, hc, ht]
        simp [findFirstTable, hc, ht, List.find?, hd, ih]
    · have hc2 : containsCreateTable l = false := by
        exact Bool.not_eq_true _ ▸ hc
      have hd : isDeclLine l = false := by
        simp [isDeclLine, hc2]
      simp [findFirstTable, hc2, List.find?, hd, ih]

/-- With the structured call failing, `write_query` runs the fallback
chain. -/
theorem write_query_of_gen_error (env : Env)
    (h : env.tableInfo1 = Except.error () ∨ env.gen = Except.error ()) :
    write_query env = write_query_fallback env := by
  unfold write_query
  rcases h with h | h
  · rw [h]
  · rw [h]
    cases env.tableInfo1 <;> rfl

/-! ## C1 — generation fallback ordering -/

/-- C1 (amended): in a run where the structured SQL-generation call
fails, the generation stage falls back in this order: if the schema
description has a line containing a `CREATE TABLE` declaration with a
table-name token, and that first declaration line's name is non-empty
after stripping quote characters, the generated SQL is exactly
`SELECT * FROM <first_table> LIMIT 5;`; if the first declaration line's
stripped name is empty, or no declaration line exists, or the fallback's
own schema introspection fails, the catalog-listing query is used. -/
theorem c1_generation_fallback_order (env : Env)
    (hg : env.gen = Except.error ()) :
    (env.tableInfo2 = Except.error () → (write_query env).query = catalogQuery)
    ∧ (∀ info, env.tableInfo2 = Except.ok info →
        ((pySplitLines info).find? isDeclLine = none →
          (write_query env).query = catalogQuery)
        ∧ (∀ l, (pySplitLines info).find? isDeclLine = some l →
            (declName l ≠ "" →
              (write_query env).query =
                "SELECT * FROM " ++ declName l ++ " LIMIT 5;")
            ∧ (declName l = "" → (write_query env).query = catalogQuery))) := by
  rw [write_query_of_gen_error env (Or.inr hg)]
  constructor
  · intro h2
    simp [write_query_fallback, h2]
  · intro info h2
    constructor
    · intro hnone
      simp [write_query_fallback, h2, findFirstTable_eq_find, hnone]
    · intro l hl
      constructor
      · intro hne
        simp [write_query_fallback, h2, findFirstTable_eq_find, hl, hne]
      · intro he
        simp [write_query_fallback, h2, findFirstTable_eq_find, hl, he]

/-- A run exercising the C1 fallback on a schema with a declaration
line. -/
def envC1 : Env :=
  ⟨.ok "", .error (), .ok "CREATE TABLE users (\n id INTEGER\n)",
    fun _ => .raises, .error (), .error (), false, ""⟩

/-- Witness for C1: on a schema declaring `users`, the failed generation
falls back to `SELECT * FROM users LIMIT 5;`. -/
theorem c1_generation_fallback_order_witness :
    (write_query envC1).query = "SELECT * FROM users LIMIT 5;" :=
  (((c1_generation_fallback_order envC1 rfl).2
      "CREATE TABLE users (\n id INTEGER\n)" rfl).2
    "CREATE TABLE users (" (by decide)).1 (by decide)

/-- A schema whose first `CREATE TABLE` line has a table-name token that
strips to the empty string, followed by a properly declared table. -/
def envC1bad : Env :=
  ⟨.ok "", .error (), .ok "CREATE TABLE [] x\nCREATE TABLE foo (",
    fun _ => .raises, .error (), .error (), false, ""⟩

/-- Counterexample to C1 as stated: the schema description contains a
`CREATE TABLE` declaration (indeed a perfectly good one for table
`foo`), yet the fallback is the catalog-listing query, not a
`SELECT * FROM <table> LIMIT 5;` query: the scan breaks on the first
line with a marker and more than two tokens, whose stripped name is
empty and therefore falsy. -/
theorem c1_counterexample :
    (((pySplitLines "CREATE TABLE [] x\nCREATE TABLE foo (").map
        isDeclLine) = [true, true])
    ∧ (write_query envC1bad).query = catalogQuery
    ∧ (write_query envC1bad).query ≠ "SELECT * FROM foo LIMIT 5;"
    ∧ (write_query envC1bad).query ≠ "SELECT * FROM  LIMIT 5;" := by
  refine ⟨by decide, rfl, by decide, by decide⟩

/-! ## C10 — totality and non-emptiness of generation -/

/-- C10 (amended): the generation stage is total and always returns a
string for the `query` field; whenever the primary path fails (the
structured call or the first schema introspection raises), the fallback
chain yields a non-empty SQL string — even the failure of the first-table
fallback itself yields the catalog-listing query — so the execute stage
is always invoked with some SQL and never with a null query.  (As
stated, the claim is refuted by `c10_counterexample`: a successful
structured call may return the empty string, which the stage passes
through.) -/
theorem c10_generation_fallback_nonempty (env : Env)
    (h : env.tableInfo1 = Except.error () ∨ env.gen = Except.error ()) :
    (write_query env).query ≠ "" := by
  rw [write_query_of_gen_error env h]
  cases h2 : env.tableInfo2 with
  | error e =>
    have hq : write_query_fallback env = ⟨catalogQuery⟩ := by
      simp [write_query_fallback, h2]
    rw [hq]
    decide
  | ok info =>
    cases hf : findFirstTable (pySplitLines info) with
    | none =>
      have hq : write_query_fallback env = ⟨catalogQuery⟩ := by
        simp [write_query_fallback, h2, hf]
      rw [hq]
      decide
    | some t =>
      cases ht : (t != "") with
      | false =>
        have hq : write_query_fallback env = ⟨catalogQuery⟩ := by
          simp [write_query_fallback, h2, hf, ht]
        rw [hq]
        decide
      | true =>
        have hq : write_query_fallback env =
            ⟨"SELECT * FROM " ++ t ++ " LIMIT 5;"⟩ := by
          simp [write_query_fallback, h2, hf, ht]
        rw [hq]
        intro hcon
        have hl := congrArg String.length hcon
        rw [String.length_append, String.length_append] at hl
        have he1 : "SELECT * FROM ".length = 14 := rfl
        have he2 : " LIMIT 5;".length = 9 := rfl
        have he3 : ("" : String).length = 0 := rfl
        rw [he1, he2, he3] at hl
        omega

/-- A run whose structured generation succeeds but returns the empty
string. -/
def envC10 : Env :=
  ⟨.ok "", .ok "", .ok "", fun _ => .raises, .error (), .error (), false, ""⟩

/-- Counterexample to C10 as stated: with a successful structured call
returning the empty string, the generation stage returns the empty
string as the `query` field — not a non-empty SQL string. -/
theorem c10_counterexample : (write_query envC10).query = "" := rfl

/-- A run whose structured generation fails over a schema with one
declared table. -/
def envC10b : Env :=
  ⟨.ok "", .error (), .ok "CREATE TABLE t (x)", fun _ => .raises,
    .error (), .error (), false, ""⟩

/-- Witness for C10 (amended): a concrete failing generation yields a
non-empty query. -/
theorem c10_generation_fallback_nonempty_witness :
    (write_query envC10b).query ≠ "" :=
  c10_generation_fallback_nonempty envC10b (Or.inr rfl)

/-! ## C5 — execute-stage normalization -/

/-- C4 (amended): when the completion call made by the validation stage
itself raises, the exception is caught before the discard block runs and
the state passes through unchanged (fail-open): the run produces the
same final `QueryResult` as a run whose validation response is a plain
`"yes"` — `generated_sql`, the result rows and the answer are all kept.
(The claim as stated — provider failure treated exactly like a `"no"` —
is refuted by `c4_counterexample`.) -/
theorem c4_validation_failure_passthrough :
    (∀ st : State, validate_result (Except.error ()) st = st)
    ∧ (∀ (env : Env) (q : String), env.valResp = Except.error () →
        query_structured env q =
          query_structured { env with valResp := Except.ok "yes" } q) := by
  constructor
  · intro st
    rfl
  · intro env q h
    have hy : containsYes "yes" = true := rfl
    have hw : write_query { env with valResp := Except.ok "yes" } = write_query env := by
      unfold write_query write_query_fallback
      rfl
    simp [query_structured, query_structured_run, validate_result, h, hy, hw]

/-- A run whose validation completion call raises while everything else
succeeds. -/
def envC4 : Env :=
  ⟨.ok "", .ok "SELECT 1", .ok "",
    fun _ => .returns (.lit (.pylist [.pytuple [.pyint 1]])),
    .ok "the answer", .error (), false, ""⟩

/-- Witness for C4 (amended): the concrete failing-validation run equals
the same run with a `"yes"` validation response. -/
theorem c4_validation_failure_passthrough_witness :
    query_structured envC4 "some question" =
      query_structured { envC4 with valResp := Except.ok "yes" } "some question" :=
  c4_validation_failure_passthrough.2 envC4 "some question" rfl

/-- Counterexample to C4 as stated: in a run whose validation completion
call raises, the generated SQL is kept (not discarded), the answer is
the generated one (not the rejection message) and the rows survive. -/
theorem c4_counterexample :
    (query_structured envC4 "some question").sql_query = some "SELECT 1"
    ∧ (query_structured envC4 "some question").answer = "the answer"
    ∧ (query_structured envC4 "some question").answer ≠ rejectionMessage
    ∧ (query_structured envC4 "some question").row_count = 1 :=
  ⟨rfl, rfl, by decide, rfl⟩

/-! ## C2 — validation rejection shape -/

/-- C2 (amended): in a completed run (no orchestration fault) whose
validation response does not contain the case-insensitive substring
`yes`, the final `QueryResult` has a null `sql_query`, an empty result
set, `row_count` zero, and `answer` equal to the fixed rejection message
followed by a newline — regardless of what the execute stage returned
(the engine behaviour is quantified over).  (As literally stated — the
answer equal to the message without the trailing newline — the claim is
refuted by `c2_counterexample`.) -/
theorem c2_validation_reject_shape (env : Env) (q s : String)
    (hf : env.orchFault = false) (hv : env.valResp = Except.ok s)
    (hn : containsYes s = false) :
    query_structured env q =
      { question := q, sql_query := none, result := emptyDF,
        answer := rejectionMessage, row_count := 0 } := by
  simp [query_structured, query_structured_run, validate_result, hv, hn, hf,
    emptyDF]

/-- A run whose validation response is `"no"` but whose execution
returned one row. -/
def envC2 : Env :=
  ⟨.ok "", .ok "SELECT 1", .ok "",
    fun _ => .returns (.lit (.pylist [.pytuple [.pyint 1]])),
    .ok "the answer", .ok "no", false, ""⟩

/-- Witness for C2 (amended): the concrete rejected run has the
discarded shape. -/
theorem c2_validation_reject_shape_witness :
    query_structured envC2 "some question" =
      { question := "some question", sql_query := none, result := emptyDF,
        answer := rejectionMessage, row_count := 0 } :=
  c2_validation_reject_shape envC2 "some question" "no" rfl rfl (by decide)

/-- Counterexample to C2 as stated: the rejected run's answer is the
rejection message with a trailing newline, so it is not equal to the
message as quoted by the claim (without the newline). -/
theorem c2_counterexample :
    (query_structured envC2 "some question").answer
      ≠ "The SQL query could not be validated for your question. Please ask a clearer question."
    ∧ (query_structured envC2 "some question").answer
      = "The SQL query could not be validated for your question. Please ask a clearer question.\n" :=
  ⟨by decide, rfl⟩

/-! ## C3 — row-count invariant -/

/-- C3 (amended): for every returned `QueryResult`, on any path
(including validation rejection and the orchestration-error fallback),
`row_count` equals the number of rows in the result set; and if
`sql_query` is null the result set is empty and `row_count` is zero.
(The claim's stronger version — the same consequence when `sql_query` is
the empty string — is refuted by `c3_counterexample`: generation may
succeed with the empty string and execution of it may return rows.) -/
theorem c3_row_count_invariant (env : Env) (q : String) :
    (query_structured env q).row_count
      = (query_structured env q).result.rows.length
    ∧ ((query_structured env q).sql_query = none →
        (query_structured env q).result.rows = []
        ∧ (query_structured env q).row_count = 0) := by
  unfold query_structured query_structured_run
  cases hof : env.orchFault with
  | true =>
    simp [emptyDF]
  | false =>
    cases hv : env.valResp with
    | error e =>
      simp [validate_result]
    | ok c =>
      cases hy : containsYes c with
      | true => simp [validate_result, hy]
      | false => simp [validate_result, hy, emptyDF]

/-- Witness for C3 (amended): in the concrete rejected run, the null
`sql_query` comes with an empty result set and zero row count. -/
theorem c3_row_count_invariant_witness :
    (query_structured envC2 "some question").result.rows = []
    ∧ (query_structured envC2 "some question").row_count = 0 :=
  (c3_row_count_invariant envC2 "some question").2 rfl

/-- A run whose structured generation succeeds with the empty string,
whose engine returns a row for it, and whose validation accepts. -/
def envC3 : Env :=
  ⟨.ok "", .ok "", .ok "",
    fun _ => .returns (.lit (.pylist [.pytuple [.pyint 1]])),
    .ok "the answer", .ok "yes", false, ""⟩

/-- Counterexample to C3 as stated: a returned `QueryResult` whose
`sql_query` is the empty (but non-null) string carries a non-empty
result set with `row_count` 1. -/
theorem c3_counterexample :
    (query_structured envC3 "some question").sql_query = some ""
    ∧ (query_structured envC3 "some question").row_count = 1
    ∧ (query_structured envC3 "some question").result.rows ≠ [] :=
  ⟨rfl, rfl, fun h => List.noConfusion h⟩

/-! ## C6 — orchestration-error boundary -/

/-- C6: the pipeline entry point is total by construction (every stage
failure is modelled internally and absorbed), and when an exception
arises in the orchestration glue itself, the outermost boundary converts
it into a `QueryResult` with empty `sql_query`, empty result set,
`row_count` zero, and a non-empty answer describing the error. -/
theorem c6_orchestration_error_boundary (env : Env) (q : String)
    (h : env.orchFault = true) :
    query_structured env q =
      { question := q, sql_query := some "", result := emptyDF,
        answer := "Error processing query: " ++ env.orchMsg, row_count := 0 }
    ∧ (query_structured env q).answer ≠ "" := by
  have hrun : query_structured env q =
      { question := q, sql_query := some "", result := emptyDF,
        answer := "Error processing query: " ++ env.orchMsg, row_count := 0 } := by
    simp [query_structured, query_structured_run, h]
  refine ⟨hrun, ?_⟩
  rw [hrun]
  intro hcon
  have hl := congrArg String.length hcon
  rw [String.length_append] at hl
  have he1 : "Error processing query: ".length = 24 := rfl
  have he3 : ("" : String).length = 0 := rfl
  rw [he1, he3] at hl
  omega

/-- A run whose orchestration glue raises with message `boom`. -/
def envC6 : Env :=
  ⟨.ok "", .ok "SELECT 1", .ok "",
    fun _ => .returns (.lit (.pylist [.pytuple [.pyint 1]])),
    .ok "the answer", .ok "yes", true, "boom"⟩

/-- Witness for C6: the concrete faulted run is converted to the
error-shape result with a non-empty explanatory answer. -/
theorem c6_orchestration_error_boundary_witness :
    query_structured envC6 "some question" =
      { question := "some question", sql_query := some "", result := emptyDF,
        answer := "Error processing query: boom", row_count := 0 }
    ∧ (query_structured envC6 "some question").answer ≠ "" :=
  c6_orchestration_error_boundary envC6 "some question" rfl

/-! ## C9 — idempotence / purity of validation -/

/-- C9: with a fixed deterministic judgment function, running the
validate stage twice in succession yields the same outcome as running it
once (the stage is idempotent as a state transformation), and the
verdict is a pure function of the state's `question` and `query` fields:
two states agreeing on those get the same verdict — in particular,
running the stage twice on the same `PipelineState` yields the same
verdict both times. -/
theorem c9_validate_idempotent
    (judge : String → Option String → Except Unit String) (st : State) :
    validate_with judge (validate_with judge st) = validate_with judge st
    ∧ (∀ st2 : State, st.question = st2.question → st.query = st2.query →
        validationVerdict judge st = validationVerdict judge st2) := by
  constructor
  · obtain ⟨sq, squ, sr, sa, src⟩ := st
    unfold validate_with validate_result
    cases hj : judge sq squ with
    | error e => simp [hj]
    | ok c =>
      cases hy : containsYes c with
      | true => simp [hj, hy]
      | false =>
        simp only [hj, hy, Bool.false_eq_true, if_false]
        cases hj2 : judge sq (none : Option String) with
        | error e2 => simp [hj2]
        | ok c2 =>
          cases hy2 : containsYes c2 with
          | true => simp [hj2, hy2]
          | false => simp [hj2, hy2]
  · intro st2 h1 h2
    unfold validationVerdict
    rw [h1, h2]

/-- Witness for C9: a concrete judge rejecting every non-null query is
idempotent on a concrete state, and two states differing only in their
result rows get the same verdict. -/
theorem c9_validate_idempotent_witness :
    (validate_with (fun _ oq => .ok (if oq.isSome then "no" else "yes"))
        (validate_with (fun _ oq => .ok (if oq.isSome then "no" else "yes"))
          ⟨"q", some "SELECT 1", some emptyDF, some "a", none⟩)
      = validate_with (fun _ oq => .ok (if oq.isSome then "no" else "yes"))
          ⟨"q", some "SELECT 1", some emptyDF, some "a", none⟩)
    ∧ validationVerdict (fun _ oq => .ok (if oq.isSome then "no" else "yes"))
        (⟨"q", some "SELECT 1", some emptyDF, some "a", none⟩ : State)
      = validationVerdict (fun _ oq => .ok (if oq.isSome then "no" else "yes"))
        (⟨"q", some "SELECT 1", some ⟨true, [PyVal.pyint 3]⟩, none, none⟩ : State) :=
  ⟨(c9_validate_idempotent _ _).1,
   (c9_validate_idempotent (fun _ oq => .ok (if oq.isSome then "no" else "yes"))
      ⟨"q", some "SELECT 1", some emptyDF, some "a", none⟩).2
    ⟨"q", some "SELECT 1", some ⟨true, [PyVal.pyint 3]⟩, none, none⟩ rfl rfl⟩

/-! ## C7 — session sweep -/

/-- `find?` is unaffected by filtering with a predicate implied by the
search predicate. -/
theorem find?_filter_stable {α : Type} (p q : α → Bool) (l : List α)
    (h : ∀ a, q a = true → p a = true) :
    (l.filter p).find? q = l.find? q := by
  induction l with
  | nil => rfl
  | cons a l ih =>
    cases hq : q a with
    | true =>
      have hp := h a hq
      simp [List.filter_cons, hp, List.find?, hq]
    | false =>
      cases hp : p a with
      | true => simp [List.filter_cons, hp, List.find?, hq, ih]
      | false => simp [List.filter_cons, hp, List.find?, hq, ih]

/-- In a registry with pairwise-distinct sids, looking a member session
up by its own sid finds exactly that session. -/
theorem find?_key_of_mem (l : List Session)
    (hnd : (l.map Session.sid).Nodup) (s : Session) (hs : s ∈ l) :
    l.find? (fun x => x.sid == s.sid) = some s := by
  induction l with
  | nil => cases hs
  | cons a l ih =>
    rw [List.map_cons, List.nodup_cons] at hnd
    cases hbeq : (a.sid == s.sid) with
    | true =>
      have heq : a.sid = s.sid := eq_of_beq hbeq
      rcases List.mem_cons.mp hs with hsa | hsl
      · subst hsa
        simp [List.find?, hbeq]
      · exact absurd (heq ▸ List.mem_map_of_mem Session.sid hsl) hnd.1
    | false =>
      have hsl : s ∈ l := by
        rcases List.mem_cons.mp hs with hsa | hsl
        · subst hsa
          simp at hbeq
        · exact hsl
      simp [List.find?, hbeq, ih hnd.2 hsl]

/-- The registry left by the sweep loop: exactly the sessions whose sid
was not in the expired list survive. -/
theorem sweepLoop_registry (sids : List String) :
    ∀ (reg : List Session) (rel : List String),
      (sweepLoop sids reg rel).1
        = reg.filter (fun s => decide (s.sid ∉ sids)) := by
  induction sids with
  | nil =>
    intro reg rel
    simp [sweepLoop]
  | cons sid rest ih =>
    intro reg rel
    unfold sweepLoop
    rw [ih, List.filter_filter]
    congr 1
    funext s
    by_cases h1 : s.sid = sid
    · simp [h1, bne]
    · by_cases h2 : s.sid ∈ rest
      · simp [h1, h2, bne]
      · simp [h1, h2, bne]

/-- The release log of the sweep loop, when the processed sids are
pairwise distinct and `F` describes lookup in the current registry: the
successfully released sids are exactly those whose session does not
raise on release. -/
theorem sweepLoop_released (F : String → Option Session) :
    ∀ (sids : List String) (reg : List Session) (rel : List String),
      sids.Nodup →
      (∀ sid, sid ∈ sids → reg.find? (fun s => s.sid == sid) = F sid) →
      (sweepLoop sids reg rel).2
        = rel ++ sids.filter (fun sid =>
            match F sid with
            | some s => !s.releaseRaises
            | none => false) := by
  intro sids
  induction sids with
  | nil =>
    intro reg rel _ _
    simp [sweepLoop]
  | cons sid rest ih =>
    intro reg rel hnd hF
    have hhead := hF sid (List.mem_cons_self sid rest)
    rw [List.nodup_cons] at hnd
    have hF2 : ∀ x, x ∈ rest →
        (reg.filter (fun s => s.sid != sid)).find? (fun s => s.sid == x)
          = F x := by
      intro x hx
      have hxne : x ≠ sid := fun hcon => hnd.1 (hcon ▸ hx)
      rw [find?_filter_stable]
      · exact hF x (List.mem_cons_of_mem _ hx)
      · intro a ha
        have hax : a.sid = x := eq_of_beq ha
        simp [bne, hax, hxne]
    have hrest := fun rel2 =>
      ih (reg.filter (fun s => s.sid != sid)) rel2 hnd.2 hF2
    unfold sweepLoop
    rw [hhead]
    cases hFs : F sid with
    | none =>
      show (sweepLoop rest (reg.filter (fun s => s.sid != sid)) rel).2 = _
      rw [hrest rel]
      simp [List.filter_cons, hFs]
    | some s =>
      cases hr : s.releaseRaises with
      | true =>
        show (sweepLoop rest (reg.filter (fun s => s.sid != sid))
            (if s.releaseRaises = true then rel else rel ++ [sid])).2 = _
        rw [hr, if_pos rfl, hrest rel]
        simp [List.filter_cons, hFs, hr]
      | false =>
        show (sweepLoop rest (reg.filter (fun s => s.sid != sid))
            (if s.releaseRaises = true then rel else rel ++ [sid])).2 = _
        rw [hr, if_neg (by simp), hrest (rel ++ [sid])]
        simp [List.filter_cons, hFs, hr]

/-- Membership of a session's sid in the expired-sid list is exactly its
own expiry, given pairwise-distinct sids. -/
theorem mem_expired_iff (now : Int) (sessions : List Session)
    (hnd : (sessions.map Session.sid).Nodup) (s : Session)
    (hs : s ∈ sessions) :
    (s.sid ∈ (sessions.filter (isExpired now)).map Session.sid
      ↔ isExpired now s = true) := by
  constructor
  · intro hmem
    rcases List.mem_map.mp hmem with ⟨x, hxf, hxsid⟩
    rcases List.mem_filter.mp hxf with ⟨hxmem, hxexp⟩
    have : x = s := List.inj_on_of_nodup_map hnd hxmem hs hxsid
    exact this ▸ hxexp
  · intro hexp
    exact List.mem_map_of_mem Session.sid (List.mem_filter.mpr ⟨hs, hexp⟩)

/-- C7: a sweep at time `now` removes a session exactly when
`now - last_active > 900`; its handle release is attempted and succeeds
exactly when it is expired and disposal does not raise; the registry
entry is removed even when the release raises, and a raising session
does not prevent the others from being swept (the characterization holds
pointwise for every session of the registry). -/
theorem c7_sweep_eviction (now : Int) (sessions : List Session)
    (hnd : (sessions.map Session.sid).Nodup) (s : Session)
    (hs : s ∈ sessions) :
    (s ∈ (cleanup_sessions now sessions).1
      ↔ ¬(now - s.last_used > SESSION_TTL))
    ∧ (s.sid ∈ (cleanup_sessions now sessions).2
      ↔ (now - s.last_used > SESSION_TTL ∧ s.releaseRaises = false)) := by
  constructor
  · unfold cleanup_sessions
    rw [sweepLoop_registry, List.mem_filter]
    constructor
    · intro hmem
      have hc := decide_eq_true_iff.mp hmem.2
      intro hexp
      exact hc ((mem_expired_iff now sessions hnd s hs).mpr (by
        simp only [isExpired]
        exact decide_eq_true hexp))
    · intro hne
      refine ⟨hs, decide_eq_true_iff.mpr ?_⟩
      intro hcon
      have hx := (mem_expired_iff now sessions hnd s hs).mp hcon
      simp only [isExpired] at hx
      exact hne (of_decide_eq_true hx)
  · unfold cleanup_sessions
    have hndexp : ((sessions.filter (isExpired now)).map Session.sid).Nodup :=
      hnd.sublist ((List.filter_sublist sessions).map Session.sid)
    rw [sweepLoop_released (fun sid => sessions.find? (fun x => x.sid == sid))
      _ _ _ hndexp (fun _ _ => rfl)]
    rw [List.nil_append, List.mem_filter]
    rw [mem_expired_iff now sessions hnd s hs]
    rw [find?_key_of_mem sessions hnd s hs]
    simp [isExpired]

/-- Witness for C7, covering the claim's concrete instances: a session
last active at `t0 = 0` is removed and released by a sweep at
`t0 + TTL + 1` and kept by a sweep at `t0 + TTL - 1`; a session whose
release raises is still removed, and does not prevent the other expired
session from being swept and released. -/
theorem c7_sweep_eviction_witness :
    ((⟨"a", 0, false⟩ : Session) ∉ (cleanup_sessions 901 [⟨"a", 0, false⟩]).1)
    ∧ ((⟨"a", 0, false⟩ : Session) ∈ (cleanup_sessions 899 [⟨"a", 0, false⟩]).1)
    ∧ ("a" ∈ (cleanup_sessions 901 [⟨"a", 0, false⟩]).2)
    ∧ ((⟨"a", 0, true⟩ : Session) ∉
        (cleanup_sessions 1000 [⟨"a", 0, true⟩, ⟨"b", 0, false⟩]).1)
    ∧ ("a" ∉ (cleanup_sessions 1000 [⟨"a", 0, true⟩, ⟨"b", 0, false⟩]).2)
    ∧ ((⟨"b", 0, false⟩ : Session) ∉
        (cleanup_sessions 1000 [⟨"a", 0, true⟩, ⟨"b", 0, false⟩]).1)
    ∧ ("b" ∈ (cleanup_sessions 1000 [⟨"a", 0, true⟩, ⟨"b", 0, false⟩]).2) := by
  refine ⟨?_, ?_, ?_, ?_, ?_, ?_, ?_⟩
  · intro hcon
    exact absurd ((c7_sweep_eviction 901 [⟨"a", 0, false⟩] (by simp)
      ⟨"a", 0, false⟩ (by simp)).1.mp hcon) (by norm_num [SESSION_TTL])
  · exact (c7_sweep_eviction 899 [⟨"a", 0, false⟩] (by simp)
      ⟨"a", 0, false⟩ (by simp)).1.mpr (by norm_num [SESSION_TTL])
  · exact (c7_sweep_eviction 901 [⟨"a", 0, false⟩] (by simp)
      ⟨"a", 0, false⟩ (by simp)).2.mpr (by norm_num [SESSION_TTL])
  · intro hcon
    exact absurd ((c7_sweep_eviction 1000 [⟨"a", 0, true⟩, ⟨"b", 0, false⟩]
      (by simp) ⟨"a", 0, true⟩ (by simp)).1.mp hcon) (by norm_num [SESSION_TTL])
  · intro hcon
    have := (c7_sweep_eviction 1000 [⟨"a", 0, true⟩, ⟨"b", 0, false⟩]
      (by simp) ⟨"a", 0, true⟩ (by simp)).2.mp hcon
    simp at this
  · intro hcon
    exact absurd ((c7_sweep_eviction 1000 [⟨"a", 0, true⟩, ⟨"b", 0, false⟩]
      (by simp) ⟨"b", 0, false⟩ (by simp)).1.mp hcon) (by norm_num [SESSION_TTL])
  · exact (c7_sweep_eviction 1000 [⟨"a", 0, true⟩, ⟨"b", 0, false⟩]
      (by simp) ⟨"b", 0, false⟩ (by simp)).2.mpr (by norm_num [SESSION_TTL])

/-! ## C8 — short-question guard -/

/-- C8 (amended): for every request with a JSON payload and a session id
that is non-empty and present in the registry, if the carried question is
shorter than 10 characters the boundary returns the fixed guidance
message with status 400, the pipeline is never invoked, and the registry
— including the session's `last_used` timestamp — is left unchanged.
(As universally stated over all requests, the claim is refuted by
`c8_counterexample`: a short question with an unknown session id gets
the invalid-session message instead, because the session check runs
first.) -/
theorem c8_short_question_guard (env : Env) (now : Int) (sid : String)
    (q? : Option String) (sessions : List Session)
    (hne : (sid == "") = false)
    (hmem : (sessions.find? (fun s => s.sid == sid)).isNone = false)
    (hshort : (q?.getD "").length < 10) :
    process_query env now (some ⟨some sid, q?⟩) sessions
      = (ApiResponse.failure tooShortMsg 400, sessions, false) := by
  unfold process_query
  simp [hne, hmem, hshort]

/-- Witness for C8 (amended): the concrete short question `"hi"` against
a registered session returns the guidance message, leaves the registry
unchanged and never invokes the pipeline. -/
theorem c8_short_question_guard_witness :
    process_query envC2 5 (some ⟨some "s1", some "hi"⟩) [⟨"s1", 0, false⟩]
      = (ApiResponse.failure tooShortMsg 400, [⟨"s1", 0, false⟩], false) :=
  c8_short_question_guard envC2 5 "s1" (some "hi") [⟨"s1", 0, false⟩]
    rfl rfl (by decide)

/-- Counterexample to C8 as stated: a request carrying the short
question `"hi"` with a session id absent from the registry is answered
with the invalid-session message, not the fixed guidance message. -/
theorem c8_counterexample :
    process_query envC2 0 (some ⟨some "zz", some "hi"⟩) []
      = (ApiResponse.failure invalidSessionMsg 400, [], false)
    ∧ invalidSessionMsg ≠ tooShortMsg :=
  ⟨rfl, by decide⟩

end NlToSql
